import Mathlib

/-!
Shallow embedding of the Heimdall screenshot-OCR utility (src/main.py) and
proofs about it.

The program wires a global hotkey to a full-screen overlay widget; a mouse
drag on the overlay produces a QRect, which is cropped out of a grab of the
screen, sent to the Tesseract OCR engine, and the trimmed result is written
to the system clipboard and echoed to standard output.

The embedding models:
  * Qt5 integer geometry (QPoint, QRect with Qt's corner representation,
    QRect::normalized and QRect::operator&) and QPixmap::copy, following the
    Qt 5 sources and documentation, since the program's rectangle handling
    delegates to them;
  * Python str.strip();
  * the ScreenshotOverlay mouse-event handlers as a state machine;
  * MainApp (start_overlay, handle_selection) with the external library
    calls (screen grab, PIL conversion, OCR, clipboard write) abstracted as
    oracles that either return a value or raise a modelled Python exception;
  * the hotkey-listener callbacks on_press / on_release.
-/

namespace Heimdall

/-- Integer point, as Qt's QPoint (the type of event.pos() in PyQt5). -/
structure QPoint where
  x : Int
  y : Int
deriving DecidableEq, Repr

/-- Qt5 QRect in Qt's internal representation: corners (x1, y1) and
(x2, y2), with width = x2 - x1 + 1 and height = y2 - y1 + 1. -/
structure QRect where
  x1 : Int
  y1 : Int
  x2 : Int
  y2 : Int
deriving DecidableEq, Repr

/-- The QRect(topLeft, bottomRight) constructor used at main.py lines 48
and 55. -/
def QRect.ofPoints (p1 p2 : QPoint) : QRect :=
  ⟨p1.x, p1.y, p2.x, p2.y⟩

/-- The QRect(topLeft, size) constructor used at main.py line 42 with an
empty QSize (width = height = 0), and for pixmap bounds rectangles. -/
def QRect.ofPointSize (p : QPoint) (w h : Int) : QRect :=
  ⟨p.x, p.y, p.x + w - 1, p.y + h - 1⟩

/-- Qt5 QRect::width. -/
def QRect.width (r : QRect) : Int := r.x2 - r.x1 + 1

/-- Qt5 QRect::height. -/
def QRect.height (r : QRect) : Int := r.y2 - r.y1 + 1

/-- Qt5 QRect::isEmpty: true when x1 > x2 or y1 > y2. -/
def QRect.isEmpty (r : QRect) : Bool := r.x1 > r.x2 || r.y1 > r.y2

/-- Qt5 QRect::isNull: true when x2 = x1 - 1 and y2 = y1 - 1. -/
def QRect.isNull (r : QRect) : Bool := r.x2 == r.x1 - 1 && r.y2 == r.y1 - 1

/-- The null rectangle QRect(), i.e. x1 = y1 = 0, x2 = y2 = -1. -/
def QRect.nullRect : QRect := ⟨0, 0, -1, -1⟩

/-- Qt5 QRect::normalized, as implemented in qrect.cpp: the x corners are
swapped only when x2 < x1 - 1 (so widths 0 and -1 are left alone), and
likewise for y. -/
def QRect.normalized (r : QRect) : QRect :=
  let xs := if r.x2 < r.x1 - 1 then (r.x2, r.x1) else (r.x1, r.x2)
  let ys := if r.y2 < r.y1 - 1 then (r.y2, r.y1) else (r.y1, r.y2)
  ⟨xs.1, ys.1, xs.2, ys.2⟩

/-- Qt5 QRect::operator& (intersected), as implemented in qrect.cpp. -/
def QRect.intersected (a b : QRect) : QRect :=
  if a.isNull || b.isNull then QRect.nullRect
  else
    let l1 := if a.x2 - a.x1 + 1 < 0 then a.x2 else a.x1
    let r1 := if a.x2 - a.x1 + 1 < 0 then a.x1 else a.x2
    let l2 := if b.x2 - b.x1 + 1 < 0 then b.x2 else b.x1
    let r2 := if b.x2 - b.x1 + 1 < 0 then b.x1 else b.x2
    if l1 > r2 || l2 > r1 then QRect.nullRect
    else
      let t1 := if a.y2 - a.y1 + 1 < 0 then a.y2 else a.y1
      let b1 := if a.y2 - a.y1 + 1 < 0 then a.y1 else a.y2
      let t2 := if b.y2 - b.y1 + 1 < 0 then b.y2 else b.y1
      let b2 := if b.y2 - b.y1 + 1 < 0 then b.y1 else b.y2
      if t1 > b2 || t2 > b1 then QRect.nullRect
      else ⟨max l1 l2, max t1 t2, min r1 r2, min b1 b2⟩

/-- A QPixmap, modelled by its dimensions; the pixel contents are opaque to
every claim in this development. The null pixmap QPixmap() is 0 by 0. -/
structure QPixmap where
  w : Int
  h : Int
deriving DecidableEq, Repr

/-- Qt5 QPixmap::isNull: a pixmap with zero width or height. -/
def QPixmap.isNull (pm : QPixmap) : Bool := pm.w == 0 || pm.h == 0

/-- Qt5 QPixmap::copy(rect), the call at main.py line 78, as implemented in
qpixmap.cpp: on a null pixmap the result is null; if the given rectangle is
empty the whole pixmap is copied; otherwise the copied area is
rect.normalized() intersected with the pixmap's bounds rectangle. The
result's dimensions are the dimensions of that area. This is the area
copied: the whole pixmap for an empty rectangle, else the normalized
rectangle clipped to the bounds. -/
def QPixmap.copyArea (pm : QPixmap) (rect : QRect) : QRect :=
  if rect.isEmpty then QRect.ofPointSize ⟨0, 0⟩ pm.w pm.h
  else QRect.intersected rect.normalized (QRect.ofPointSize ⟨0, 0⟩ pm.w pm.h)

/-- Qt5 QPixmap::copy(rect): a null result for a null pixmap, otherwise a
pixmap with the dimensions of the copied area. -/
def QPixmap.copy (pm : QPixmap) (rect : QRect) : QPixmap :=
  if pm.isNull then ⟨0, 0⟩
  else ⟨(pm.copyArea rect).width, (pm.copyArea rect).height⟩

/-- The characters Python's str.strip() removes, restricted to the ASCII
whitespace set (the claims quantify only over such text). -/
def pyIsSpace (c : Char) : Bool :=
  c = ' ' || c = '\t' || c = '\n' || c = '\r' || c = '\x0b' || c = '\x0c'

/-- Python str.strip() with no argument (main.py lines 90 and 91): removes
leading and trailing whitespace. -/
def pyStrip (s : String) : String :=
  ⟨((s.toList.dropWhile pyIsSpace).reverse.dropWhile pyIsSpace).reverse⟩

/-- A raised Python exception, identified by its class and its str(e) text.
Every class modelled here derives from Python's Exception (the libraries
used by the pipeline raise pytesseract.TesseractError, AttributeError, and
other Exception subclasses; asynchronous BaseException signals such as
KeyboardInterrupt are not failures of the pipeline and are out of scope). -/
inductive PyError
  | tesseractError (msg : String)
  | attributeError (msg : String)
  | otherException (msg : String)
deriving DecidableEq, Repr

/-- Python str(e) for a modelled exception. -/
def PyError.str : PyError → String
  | .tesseractError m => m
  | .attributeError m => m
  | .otherException m => m

/-- Whether the exception's class derives from Python's Exception, the class
named by the broad except clauses; true for every modelled class. -/
def PyError.isException : PyError → Bool
  | .tesseractError _ => true
  | .attributeError _ => true
  | .otherException _ => true

/-- A PIL image (the value produced at main.py line 84), kept opaque: it is
only handed from the conversion step to the OCR call. -/
structure PILImage where
  tag : Nat
deriving DecidableEq, Repr

/-- The external operations invoked inside MainApp.handle_selection's try
block, in source order. -/
inductive PipeOp
  | grabWindow     -- screen.grabWindow(0), line 77
  | pixmapCopy     -- screenshot.copy(rect), line 78
  | toPilImage     -- QBuffer save plus Image.open, lines 81 to 84
  | imageToString  -- pytesseract.image_to_string, line 87
  | pyperclipCopy  -- pyperclip.copy, line 90
deriving DecidableEq, Repr

/-- Outcomes of the external library calls made inside handle_selection's
try block, as oracles: an Except.error or some PyError value is a raised
exception. -/
structure PipeEnv where
  grabWindow : Except PyError QPixmap
  toPilImage : QPixmap → Except PyError PILImage
  imageToString : PILImage → Except PyError String
  pyperclipCopy : String → Option PyError

/-- Mouse buttons distinguished by the overlay's event handlers. -/
inductive MouseButton
  | left
  | right
  | middle
deriving DecidableEq, Repr

/-- A mouse event delivered to the overlay widget. -/
inductive MouseEvent
  | press (b : MouseButton) (pos : QPoint)
  | move (pos : QPoint)
  | release (b : MouseButton) (pos : QPoint)
deriving DecidableEq, Repr

/-- State of one ScreenshotOverlay widget. closeCount counts executions of
self.close() so that closing exactly once is statable. -/
structure Overlay where
  start_point : Option QPoint
  end_point : Option QPoint
  rubber_visible : Bool
  rubber_geom : QRect
  visible : Bool
  connected : Bool
  closeCount : Nat
deriving DecidableEq, Repr

/-- ScreenshotOverlay.__init__ (lines 18 to 32): no drag in progress, the
rubber band exists but is hidden, the widget is not yet shown and nothing
is connected to selectionComplete. -/
def Overlay.init : Overlay :=
  { start_point := none
    end_point := none
    rubber_visible := false
    rubber_geom := QRect.nullRect
    visible := false
    connected := false
    closeCount := 0 }

/-- An overlay as produced by MainApp.start_overlay: freshly constructed,
its selectionComplete signal connected to handle_selection, and shown. -/
def Overlay.shown : Overlay :=
  { Overlay.init with connected := true, visible := true }

/-- Result of delivering one mouse event to the overlay: the new widget
state, the rectangles emitted via selectionComplete during the call in
order, and an exception if the handler raised one. -/
structure OverlayStepResult where
  overlay : Overlay
  emitted : List QRect
  raised : Option PyError
deriving Repr

/-- ScreenshotOverlay.mousePressEvent (lines 38 to 44): on a left press,
record the position, give the rubber band an empty geometry there and show
it; other buttons are ignored. -/
def Overlay.onPress (o : Overlay) (b : MouseButton) (pos : QPoint) : Overlay :=
  if b = .left then
    { o with start_point := some pos
             rubber_geom := QRect.ofPointSize pos 0 0
             rubber_visible := true }
  else o

/-- ScreenshotOverlay.mouseMoveEvent (lines 46 to 49): while a drag is in
progress, the rubber band tracks the normalized rectangle from the start
point to the cursor. -/
def Overlay.onMove (o : Overlay) (pos : QPoint) : Overlay :=
  match o.start_point with
  | some p => { o with rubber_geom := (QRect.ofPoints p pos).normalized }
  | none => o

/-- ScreenshotOverlay.mouseReleaseEvent (lines 51 to 57): on a left
release, record the end point, hide the rubber band, emit the normalized
rectangle from start_point to the release position, and close the widget.
If start_point is still None, the QRect constructor at line 55 raises
TypeError (after the end point was stored and the rubber band hidden). -/
def Overlay.onRelease (o : Overlay) (b : MouseButton) (pos : QPoint) :
    OverlayStepResult :=
  if b = .left then
    match o.start_point with
    | some p =>
      { overlay := { o with end_point := some pos
                            rubber_visible := false
                            visible := false
                            closeCount := o.closeCount + 1 }
        emitted := [(QRect.ofPoints p pos).normalized]
        raised := none }
    | none =>
      { overlay := { o with end_point := some pos, rubber_visible := false }
        emitted := []
        raised := some (.otherException "TypeError") }
  else { overlay := o, emitted := [], raised := none }

/-- Dispatch of one mouse event to the overlay's handlers. -/
def Overlay.step (o : Overlay) : MouseEvent → OverlayStepResult
  | .press b pos => { overlay := o.onPress b pos, emitted := [], raised := none }
  | .move pos => { overlay := o.onMove pos, emitted := [], raised := none }
  | .release b pos => o.onRelease b pos

/-- Deliver a list of mouse events to the overlay, collecting every
rectangle emitted via selectionComplete. -/
def Overlay.run (o : Overlay) : List MouseEvent → Overlay × List QRect
  | [] => (o, [])
  | e :: es =>
    let r := o.step e
    let rest := r.overlay.run es
    (rest.1, r.emitted ++ rest.2)

/-- MainApp's fields: the argv list stored by the QApplication base class
at line 62, and the overlay reference set at lines 63 and 69. ghosts
records, as verification bookkeeping, every overlay object the app created
and then stopped referencing, so that properties over all overlays ever
shown are statable. -/
structure MainApp where
  args : List String
  overlay : Option Overlay
  ghosts : List Overlay
deriving Repr

/-- MainApp.__init__ (lines 61 to 63): argv is handed to the base class
unexamined and the overlay reference starts as None. -/
def MainApp.init (args : List String) : MainApp :=
  { args := args, overlay := none, ghosts := [] }

/-- create_app (lines 104 to 105): constructs MainApp from sys.argv without
parsing it. -/
def create_app (argv : List String) : MainApp := MainApp.init argv

/-- MainApp.start_overlay (lines 65 to 71): if an overlay exists and is
visible, return immediately; otherwise build a fresh overlay, connect
selectionComplete to handle_selection, and show it (any previously held
overlay reference is dropped). -/
def MainApp.start_overlay (app : MainApp) : MainApp :=
  match app.overlay with
  | some o =>
    if o.visible then app
    else { app with overlay := some Overlay.shown, ghosts := o :: app.ghosts }
  | none => { app with overlay := some Overlay.shown }

/-- The externally observable world: the system clipboard, the lines
printed to standard output, and a log of the pipeline operations invoked
(so that absence of retries is statable). -/
structure World where
  clipboard : String
  stdout : List String
  calls : List PipeOp
deriving Repr

/-- Full system state: the application object and the observable world. -/
structure SysState where
  app : MainApp
  world : World
deriving Repr

/-- The try block of MainApp.handle_selection (lines 74 to 91), threading
the system state and stopping at the first raised exception: grab the
screen, crop the rectangle out of it, convert to a PIL image, run OCR, copy
the stripped text to the clipboard, and print it. Only the clipboard write
and the print modify the world beyond the call log. -/
def handle_selection_try (env : PipeEnv) (rect : QRect) (st : SysState) :
    SysState × Option PyError :=
  let st1 := { st with world.calls := st.world.calls ++ [PipeOp.grabWindow] }
  match env.grabWindow with
  | .error e => (st1, some e)
  | .ok screenshot =>
    let st2 := { st1 with world.calls := st1.world.calls ++ [PipeOp.pixmapCopy] }
    let selected := screenshot.copy rect
    let st3 := { st2 with world.calls := st2.world.calls ++ [PipeOp.toPilImage] }
    match env.toPilImage selected with
    | .error e => (st3, some e)
    | .ok pil =>
      let st4 := { st3 with world.calls := st3.world.calls ++ [PipeOp.imageToString] }
      match env.imageToString pil with
      | .error e => (st4, some e)
      | .ok text =>
        let st5 := { st4 with world.calls := st4.world.calls ++ [PipeOp.pyperclipCopy] }
        match env.pyperclipCopy (pyStrip text) with
        | some e => (st5, some e)
        | none =>
          let st6 := { st5 with world.clipboard := pyStrip text }
          ({ st6 with world.stdout := st6.world.stdout ++
               ["Extracted text copied to clipboard: " ++ pyStrip text] }, none)

/-- The line printed by an except clause of handle_selection for a caught
exception (lines 92 to 95). -/
def handlerLine (e : PyError) : String :=
  match e with
  | .tesseractError m => "OCR Error: " ++ m
  | e' => "Error processing screenshot: " ++ e'.str

/-- MainApp.handle_selection (lines 73 to 95): the try block guarded by
except pytesseract.TesseractError and except Exception, each printing a
message. The second component is an exception propagated past both
handlers; an exception whose class is not under Exception would propagate. -/
def handle_selection (env : PipeEnv) (rect : QRect) (st : SysState) :
    SysState × Option PyError :=
  match handle_selection_try env rect st with
  | (st', none) => (st', none)
  | (st', some e) =>
    match e with
    | .tesseractError m =>
      ({ st' with world.stdout := st'.world.stdout ++ ["OCR Error: " ++ m] }, none)
    | e' =>
      if e'.isException then
        ({ st' with world.stdout := st'.world.stdout ++
             ["Error processing screenshot: " ++ e'.str] }, none)
      else (st', some e')

/-- on_press (lines 122 to 130): print the key, forward it to
hotkey.press, catch AttributeError then Exception with a printed message.
pressResult is the outcome of the hotkey.press(key) call; keyRepr is the
text Python renders for the key object. -/
def on_press (pressResult : Except PyError Unit) (keyRepr : String)
    (out : List String) : List String × Option PyError :=
  let out1 := out ++ ["Key pressed: " ++ keyRepr]
  match pressResult with
  | .ok _ => (out1, none)
  | .error e =>
    match e with
    | .attributeError m => (out1 ++ ["Invalid key pressed: " ++ m], none)
    | e' =>
      if e'.isException then
        (out1 ++ ["Error handling key press: " ++ e'.str], none)
      else (out1, some e')

/-- on_release (lines 132 to 140): the same shape as on_press, forwarding
to hotkey.release. -/
def on_release (releaseResult : Except PyError Unit) (keyRepr : String)
    (out : List String) : List String × Option PyError :=
  let out1 := out ++ ["Key released: " ++ keyRepr]
  match releaseResult with
  | .ok _ => (out1, none)
  | .error e =>
    match e with
    | .attributeError m => (out1 ++ ["Invalid key released: " ++ m], none)
    | e' =>
      if e'.isException then
        (out1 ++ ["Error handling key release: " ++ e'.str], none)
      else (out1, some e')

/-- Top-level events driving the application: the global hotkey firing
(on_activate, line 111, which calls app.start_overlay) and mouse events,
which Qt delivers to the overlay while it is shown. -/
inductive SysEvent
  | hotkey
  | mouse (e : MouseEvent)
deriving Repr

/-- One event step of the whole application. A mouse event reaches the
overlay only while one exists and is visible; each rectangle the handler
emits via selectionComplete synchronously invokes handle_selection if the
signal is connected. -/
def sysStep (env : PipeEnv) (st : SysState) : SysEvent → SysState
  | .hotkey => { st with app := st.app.start_overlay }
  | .mouse me =>
    match st.app.overlay with
    | some o =>
      if o.visible then
        let r := o.step me
        let st1 := { st with app.overlay := some r.overlay }
        r.emitted.foldl
          (fun s rect =>
            if o.connected then (handle_selection env rect s).1 else s) st1
      else st
    | none => st

/-- Run the application from a state through a list of events. -/
def sysRun (env : PipeEnv) (st : SysState) : List SysEvent → SysState
  | [] => st
  | e :: es => sysRun env (sysStep env st e) es

/-- The initial system state: the app built by create_app on the given
argv, an arbitrary prior clipboard content, empty stdout and call log. -/
def initSys (argv : List String) (clip : String) : SysState :=
  { app := create_app argv
    world := { clipboard := clip, stdout := [], calls := [] } }

/-- Everything observable about a system state: the overlay and every
overlay previously created, and the world (clipboard, stdout, calls). Only
the argv stored inside the QApplication base object is excluded. -/
def SysState.observables (st : SysState) :
    Option Overlay × List Overlay × World :=
  (st.app.overlay, st.app.ghosts, st.world)

/-- Number of visible overlays among every overlay the app ever created. -/
def SysState.visibleCount (st : SysState) : Nat :=
  (st.app.ghosts.filter (fun o => o.visible)).length +
    (match st.app.overlay with
     | some o => if o.visible then 1 else 0
     | none => 0)

/-- The pytesseract library's default value of
pytesseract.pytesseract.tesseract_cmd. -/
def tesseract_default_cmd : String := "tesseract"

/-- Process environment variables at startup. -/
structure OsEnv where
  vars : List (String × String)

/-- The value of pytesseract.pytesseract.tesseract_cmd after module-level
initialization of main.py, as a function of the process environment: the
only assignment to it in the source, line 12, is commented out, so
initialization reads nothing from the environment and leaves the library
default in place. This is the command the image_to_string call at line 87
hands to the OCR engine. -/
def tesseract_cmd_after_init (_osEnv : OsEnv) : String := tesseract_default_cmd

/-- A concrete successful pipeline environment, used by witnesses: a
1920 by 1080 screen, conversion and OCR succeed, OCR yields text with
surrounding whitespace, and the clipboard write succeeds. -/
def envOk : PipeEnv :=
  { grabWindow := Except.ok ⟨1920, 1080⟩
    toPilImage := fun _ => Except.ok ⟨0⟩
    imageToString := fun _ => Except.ok "  hello\n"
    pyperclipCopy := fun _ => none }

/-- A pipeline environment whose screen grab raises, used by witnesses. -/
def envGrabFails : PipeEnv :=
  { envOk with grabWindow := Except.error (PyError.otherException "grab failed") }

/-- An overlay mid-drag: shown, connected, with a recorded press point. -/
def overlayDragEx : Overlay :=
  { Overlay.shown with start_point := some ⟨0, 0⟩ }

/-! ### Helper lemmas -/

/-- Qt's QRect::normalized never yields a negative width or height. -/
theorem QRect.normalized_nonneg (r : QRect) :
    0 ≤ r.normalized.width ∧ 0 ≤ r.normalized.height := by
  simp only [QRect.normalized, QRect.width, QRect.height]
  split_ifs <;> simp <;> omega

/-- A rectangle with ordered corners is fixed by normalization. -/
theorem QRect.normalized_of_le (r : QRect) (hx : r.x1 ≤ r.x2)
    (hy : r.y1 ≤ r.y2) : r.normalized = r := by
  simp only [QRect.normalized]
  split_ifs <;> first | omega | rfl

/-- Intersecting an ordered rectangle with a bounds rectangle that contains
it gives the rectangle back. -/
theorem QRect.intersected_inside (a bnd : QRect)
    (h1 : bnd.x1 ≤ a.x1) (h2 : a.x1 ≤ a.x2) (h3 : a.x2 ≤ bnd.x2)
    (h4 : bnd.y1 ≤ a.y1) (h5 : a.y1 ≤ a.y2) (h6 : a.y2 ≤ bnd.y2) :
    QRect.intersected a bnd = a := by
  obtain ⟨ax1, ay1, ax2, ay2⟩ := a
  obtain ⟨bx1, by1, bx2, by2⟩ := bnd
  simp only at h1 h2 h3 h4 h5 h6
  rw [QRect.intersected]
  have hna : QRect.isNull ⟨ax1, ay1, ax2, ay2⟩ = false := by
    simp only [QRect.isNull, Bool.and_eq_false_iff, beq_eq_false_iff_ne]
    left; omega
  have hnb : QRect.isNull ⟨bx1, by1, bx2, by2⟩ = false := by
    simp only [QRect.isNull, Bool.and_eq_false_iff, beq_eq_false_iff_ne]
    left; omega
  rw [hna, hnb]
  simp only [Bool.or_false, Bool.false_eq_true, if_false]
  dsimp only
  split_ifs with hc1 hc2 hc3 hc4 hc5 hc6 <;>
    first
      | (simp only [QRect.mk.injEq]
         refine ⟨?_, ?_, ?_, ?_⟩ <;> omega)
      | (exfalso
         simp only [Bool.or_eq_true, decide_eq_true_eq] at *
         omega)

/-! ### Claim C2 -/

/-- Claim C2: every rectangle emitted via selectionComplete in
mouseReleaseEvent is normalized, i.e. has non-negative width and
non-negative height, for arbitrary relative positions of the press and
release points. -/
theorem C2_release_rect_normalized (o : Overlay) (b : MouseButton)
    (pos : QPoint) (r : QRect)
    (hr : r ∈ (o.step (MouseEvent.release b pos)).emitted) :
    0 ≤ r.width ∧ 0 ≤ r.height := by
  unfold Overlay.step Overlay.onRelease at hr
  by_cases hb : b = MouseButton.left
  · subst hb
    cases hsp : o.start_point with
    | none => rw [hsp] at hr; simp at hr
    | some p =>
      rw [hsp] at hr
      simp at hr
      subst hr
      exact QRect.normalized_nonneg _
  · simp [hb] at hr

/-- Witness for C2: on a drag from (0, 0) to a release at (-3, 4), the
emitted rectangle has non-negative width and height. -/
theorem C2_release_rect_normalized_witness :
    0 ≤ (QRect.ofPoints ⟨0, 0⟩ ⟨-3, 4⟩).normalized.width ∧
      0 ≤ (QRect.ofPoints ⟨0, 0⟩ ⟨-3, 4⟩).normalized.height :=
  C2_release_rect_normalized overlayDragEx MouseButton.left ⟨-3, 4⟩
    (QRect.ofPoints ⟨0, 0⟩ ⟨-3, 4⟩).normalized (by decide)

/-! ### Claim C5 -/

/-- Counterexample to C5 as stated. A drag from (5, 5) released at (4, 4)
is a completed selection; the emitted rectangle is empty (width and height
0, since normalization leaves a width of 0 alone). QPixmap::copy applied to
an empty rectangle copies the whole pixmap, so on a 1920 by 1080 screen the
cropped image is 1920 by 1080, not 0 by 0. -/
theorem C5_counterexample :
    (Overlay.shown.run
        [MouseEvent.press MouseButton.left ⟨5, 5⟩,
         MouseEvent.release MouseButton.left ⟨4, 4⟩]).2 =
      [(QRect.ofPoints ⟨5, 5⟩ ⟨4, 4⟩).normalized] ∧
    ¬ (((QPixmap.mk 1920 1080).copy
          ((QRect.ofPoints ⟨5, 5⟩ ⟨4, 4⟩).normalized)).w =
            ((QRect.ofPoints ⟨5, 5⟩ ⟨4, 4⟩).normalized).width ∧
       ((QPixmap.mk 1920 1080).copy
          ((QRect.ofPoints ⟨5, 5⟩ ⟨4, 4⟩).normalized)).h =
            ((QRect.ofPoints ⟨5, 5⟩ ⟨4, 4⟩).normalized).height) := by
  decide

/-- Claim C5 amended: for every selection rectangle that is non-empty and
contained in the screen pixmap's bounds, the capture-and-crop step yields
an image whose width and height equal the rectangle's. -/
theorem C5_amended_copy_dims (pm : QPixmap) (rect : QRect)
    (hne : rect.isEmpty = false)
    (hx1 : 0 ≤ rect.x1) (hy1 : 0 ≤ rect.y1)
    (hx2 : rect.x2 < pm.w) (hy2 : rect.y2 < pm.h) :
    (pm.copy rect).w = rect.width ∧ (pm.copy rect).h = rect.height := by
  have hx : rect.x1 ≤ rect.x2 := by
    simp [QRect.isEmpty] at hne; omega
  have hy : rect.y1 ≤ rect.y2 := by
    simp [QRect.isEmpty] at hne; omega
  have hnull : pm.isNull = false := by
    simp only [QPixmap.isNull, Bool.or_eq_false_iff, beq_eq_false_iff_ne]
    constructor <;> omega
  have harea : pm.copyArea rect = rect := by
    rw [QPixmap.copyArea, hne]
    simp only [Bool.false_eq_true, if_false]
    rw [QRect.normalized_of_le rect hx hy]
    exact QRect.intersected_inside rect (QRect.ofPointSize ⟨0, 0⟩ pm.w pm.h)
      (by simp [QRect.ofPointSize]; omega) hx (by simp [QRect.ofPointSize]; omega)
      (by simp [QRect.ofPointSize]; omega) hy (by simp [QRect.ofPointSize]; omega)
  rw [QPixmap.copy, hnull]
  simp [harea]

/-- Witness for the amended C5: a 10 by 10 rectangle inside a 100 by 50
screen is cropped to a 10 by 10 image. -/
theorem C5_amended_copy_dims_witness :
    ((QPixmap.mk 100 50).copy ⟨10, 10, 19, 19⟩).w = QRect.width ⟨10, 10, 19, 19⟩ ∧
      ((QPixmap.mk 100 50).copy ⟨10, 10, 19, 19⟩).h = QRect.height ⟨10, 10, 19, 19⟩ :=
  C5_amended_copy_dims ⟨100, 50⟩ ⟨10, 10, 19, 19⟩ (by decide) (by decide)
    (by decide) (by decide) (by decide)

/-! ### Claim C4 -/

/-- Counterexample to C4: with environment variables naming a custom OCR
binary set, the command handed to the OCR engine is still the library
default, because the override at main.py line 12 is commented out. -/
theorem C4_counterexample :
    tesseract_cmd_after_init
        ⟨[("TESSERACT_CMD", "/opt/custom/tesseract"),
          ("PATH", "/opt/custom/bin")]⟩ = tesseract_default_cmd ∧
      tesseract_default_cmd ≠ "/opt/custom/tesseract" := by
  constructor
  · rfl
  · decide

/-- Claim C4 amended: the program applies no OCR-binary override: for every
process environment, module initialization leaves the command used for OCR
at the pytesseract default, so no environment setting makes the program use
an overridden tesseract executable path. -/
theorem C4_amended_no_override (osEnv : OsEnv) :
    tesseract_cmd_after_init osEnv = tesseract_default_cmd := rfl

/-! ### Claim C1 -/

/-- A concrete selection rectangle used by witnesses. -/
def rectEx : QRect := ⟨0, 0, 9, 9⟩

/-- Claim C1: in every successful run of handle_selection (no exception
raised by the capture, conversion, OCR, or clipboard-write steps), the
clipboard afterwards holds the OCR output with leading and trailing
whitespace stripped, and the same stripped string is echoed to standard
output. -/
theorem C1_success_clipboard_stdout (env : PipeEnv) (rect : QRect)
    (st : SysState) (pm : QPixmap) (img : PILImage) (text : String)
    (hgrab : env.grabWindow = Except.ok pm)
    (hpil : env.toPilImage (pm.copy rect) = Except.ok img)
    (hocr : env.imageToString img = Except.ok text)
    (hclip : env.pyperclipCopy (pyStrip text) = none) :
    (handle_selection env rect st).2 = none ∧
    (handle_selection env rect st).1.world.clipboard = pyStrip text ∧
    (handle_selection env rect st).1.world.stdout =
      st.world.stdout ++
        ["Extracted text copied to clipboard: " ++ pyStrip text] := by
  refine ⟨?_, ?_, ?_⟩ <;>
    simp only [handle_selection, handle_selection_try, hgrab, hpil, hocr, hclip]

/-- Witness for C1: running the pipeline with OCR output "  hello\n" from
a fresh state leaves "hello" on the clipboard and echoes it. -/
theorem C1_success_clipboard_stdout_witness :
    (handle_selection envOk rectEx (initSys [] "old")).2 = none ∧
    (handle_selection envOk rectEx (initSys [] "old")).1.world.clipboard =
      pyStrip "  hello\n" ∧
    (handle_selection envOk rectEx (initSys [] "old")).1.world.stdout =
      (initSys [] "old").world.stdout ++
        ["Extracted text copied to clipboard: " ++ pyStrip "  hello\n"] :=
  C1_success_clipboard_stdout envOk rectEx (initSys [] "old")
    ⟨1920, 1080⟩ ⟨0⟩ "  hello\n" rfl rfl rfl rfl

/-! ### Claim C10 -/

/-- Claim C10: clipboard writes are atomic with respect to errors: if the
screenshot capture, the image conversion, or the OCR call raises, the
clipboard keeps its prior content and the pyperclip.copy call is never
reached. -/
theorem C10_failure_leaves_clipboard (env : PipeEnv) (rect : QRect)
    (st : SysState)
    (h : (∃ e, env.grabWindow = Except.error e) ∨
         (∃ pm e, env.grabWindow = Except.ok pm ∧
            env.toPilImage (pm.copy rect) = Except.error e) ∨
         (∃ pm img e, env.grabWindow = Except.ok pm ∧
            env.toPilImage (pm.copy rect) = Except.ok img ∧
            env.imageToString img = Except.error e)) :
    (handle_selection env rect st).1.world.clipboard = st.world.clipboard ∧
    (handle_selection env rect st).1.world.calls.count PipeOp.pyperclipCopy =
      st.world.calls.count PipeOp.pyperclipCopy := by
  rcases h with ⟨e, he⟩ | ⟨pm, e, hpm, he⟩ | ⟨pm, img, e, hpm, himg, he⟩
  · cases e <;>
      refine ⟨?_, ?_⟩ <;>
        simp [handle_selection, handle_selection_try, he, PyError.isException,
          List.count_append, List.count_cons, List.count_nil]
  · cases e <;>
      refine ⟨?_, ?_⟩ <;>
        simp [handle_selection, handle_selection_try, hpm, he,
          PyError.isException, List.count_append, List.count_cons,
          List.count_nil]
  · cases e <;>
      refine ⟨?_, ?_⟩ <;>
        simp [handle_selection, handle_selection_try, hpm, himg, he,
          PyError.isException, List.count_append, List.count_cons,
          List.count_nil]

/-- Witness for C10: with a failing screen grab, the clipboard keeps its
prior content and pyperclip.copy is never called. -/
theorem C10_failure_leaves_clipboard_witness :
    (handle_selection envGrabFails rectEx (initSys [] "old")).1.world.clipboard =
      (initSys [] "old").world.clipboard ∧
    (handle_selection envGrabFails rectEx
        (initSys [] "old")).1.world.calls.count PipeOp.pyperclipCopy =
      (initSys [] "old").world.calls.count PipeOp.pyperclipCopy :=
  C10_failure_leaves_clipboard envGrabFails rectEx (initSys [] "old")
    (Or.inl ⟨PyError.otherException "grab failed", rfl⟩)

/-! ### Claim C3 -/

/-- Claim C3: every failure in the capture, OCR and clipboard pipeline and
every invalid key event is caught inside the program: handle_selection,
on_press and on_release let no exception escape to their caller; when the
try block raises, exactly the matching handler's message is appended to
standard output and execution continues; and no pipeline operation is
invoked more than once in a run (no failed operation is retried). -/
theorem C3_exceptions_caught_no_retry (env : PipeEnv) (rect : QRect)
    (st : SysState) (pr rr : Except PyError Unit) (key : String)
    (out : List String) :
    (handle_selection env rect st).2 = none ∧
    (on_press pr key out).2 = none ∧
    (on_release rr key out).2 = none ∧
    (handle_selection env rect st).1.world.stdout =
      (handle_selection_try env rect st).1.world.stdout ++
        ((handle_selection_try env rect st).2.elim []
          (fun e => [handlerLine e])) ∧
    ((on_press pr key out).1 = (out ++ ["Key pressed: " ++ key]) ++
      (match pr with
       | .ok _ => []
       | .error (.attributeError m) => ["Invalid key pressed: " ++ m]
       | .error e => ["Error handling key press: " ++ e.str])) ∧
    ((on_release rr key out).1 = (out ++ ["Key released: " ++ key]) ++
      (match rr with
       | .ok _ => []
       | .error (.attributeError m) => ["Invalid key released: " ++ m]
       | .error e => ["Error handling key release: " ++ e.str])) ∧
    ∀ op : PipeOp,
      (((handle_selection env rect st).1.world.calls).drop
          st.world.calls.length).count op ≤ 1 := by
  have hpressOut : (on_press pr key out).1 = (out ++ ["Key pressed: " ++ key]) ++
      (match pr with
       | .ok _ => []
       | .error (.attributeError m) => ["Invalid key pressed: " ++ m]
       | .error e => ["Error handling key press: " ++ e.str]) := by
    unfold on_press
    cases pr with
    | ok _ => simp
    | error e => cases e <;> simp [PyError.isException, PyError.str]
  have hrelOut : (on_release rr key out).1 = (out ++ ["Key released: " ++ key]) ++
      (match rr with
       | .ok _ => []
       | .error (.attributeError m) => ["Invalid key released: " ++ m]
       | .error e => ["Error handling key release: " ++ e.str]) := by
    unfold on_release
    cases rr with
    | ok _ => simp
    | error e => cases e <;> simp [PyError.isException, PyError.str]
  have hpress : (on_press pr key out).2 = none := by
    unfold on_press
    cases pr with
    | ok _ => rfl
    | error e => cases e <;> simp [PyError.isException]
  have hrel : (on_release rr key out).2 = none := by
    unfold on_release
    cases rr with
    | ok _ => rfl
    | error e => cases e <;> simp [PyError.isException]
  have hcalls : ∃ l : List PipeOp, l.Nodup ∧
      (handle_selection env rect st).1.world.calls = st.world.calls ++ l ∧
      (handle_selection env rect st).2 = none ∧
      (handle_selection env rect st).1.world.stdout =
        (handle_selection_try env rect st).1.world.stdout ++
          ((handle_selection_try env rect st).2.elim []
            (fun e => [handlerLine e])) := by
    cases hg : env.grabWindow with
    | error e =>
      refine ⟨[PipeOp.grabWindow], by decide, ?_, ?_, ?_⟩ <;>
        cases e <;>
          simp [handle_selection, handle_selection_try, hg, handlerLine,
            PyError.str, PyError.isException]
    | ok pm =>
      cases hpil : env.toPilImage (pm.copy rect) with
      | error e =>
        refine ⟨[PipeOp.grabWindow, PipeOp.pixmapCopy, PipeOp.toPilImage],
            by decide, ?_, ?_, ?_⟩ <;>
          cases e <;>
            simp [handle_selection, handle_selection_try, hg, hpil,
              handlerLine, PyError.str, PyError.isException]
      | ok img =>
        cases hocr : env.imageToString img with
        | error e =>
          refine ⟨[PipeOp.grabWindow, PipeOp.pixmapCopy, PipeOp.toPilImage,
              PipeOp.imageToString], by decide, ?_, ?_, ?_⟩ <;>
            cases e <;>
              simp [handle_selection, handle_selection_try, hg, hpil, hocr,
                handlerLine, PyError.str, PyError.isException]
        | ok text =>
          cases hcl : env.pyperclipCopy (pyStrip text) with
          | some e =>
            refine ⟨[PipeOp.grabWindow, PipeOp.pixmapCopy, PipeOp.toPilImage,
                PipeOp.imageToString, PipeOp.pyperclipCopy],
                by decide, ?_, ?_, ?_⟩ <;>
              cases e <;>
                simp [handle_selection, handle_selection_try, hg, hpil, hocr,
                  hcl, handlerLine, PyError.str, PyError.isException]
          | none =>
            refine ⟨[PipeOp.grabWindow, PipeOp.pixmapCopy, PipeOp.toPilImage,
                PipeOp.imageToString, PipeOp.pyperclipCopy],
                by decide, ?_, ?_, ?_⟩ <;>
              simp [handle_selection, handle_selection_try, hg, hpil, hocr,
                hcl, handlerLine, PyError.str, PyError.isException]
  obtain ⟨l, hnd, hl, h2, hstdout⟩ := hcalls
  refine ⟨h2, hpress, hrel, hstdout, hpressOut, hrelOut, fun op => ?_⟩
  rw [hl, List.drop_left]
  exact List.nodup_iff_count_le_one.mp hnd op

/-! ### Claim C6 -/

/-- Helper for C6: from any overlay state with a recorded press point, any
number of move events followed by a left release increments the close count
exactly once and emits exactly one rectangle. -/
theorem Overlay.run_moves_release (p q : QPoint) :
    ∀ (ms : List QPoint) (o : Overlay), o.start_point = some p →
      ((o.run (ms.map MouseEvent.move ++
          [MouseEvent.release MouseButton.left q])).1.closeCount =
        o.closeCount + 1) ∧
      ((o.run (ms.map MouseEvent.move ++
          [MouseEvent.release MouseButton.left q])).2.length = 1) := by
  intro ms
  induction ms with
  | nil =>
    intro o hsp
    simp [Overlay.run, Overlay.step, Overlay.onRelease, hsp]
  | cons m ms ih =>
    intro o hsp
    have hsp' : (o.onMove m).start_point = some p := by
      simp [Overlay.onMove, hsp]
    have hcc : (o.onMove m).closeCount = o.closeCount := by
      simp [Overlay.onMove, hsp]
    obtain ⟨h1, h2⟩ := ih (o.onMove m) hsp'
    constructor
    · simp only [List.map_cons, List.cons_append, Overlay.run, Overlay.step]
      rw [hcc] at h1
      exact h1
    · simp only [List.map_cons, List.cons_append, Overlay.run, Overlay.step,
        List.nil_append]
      exact h2

/-- Claim C6: for every completed drag gesture on a freshly shown overlay,
a left press followed by any sequence of moves and a left release, the
overlay is closed exactly once and selectionComplete is emitted exactly
once. -/
theorem C6_drag_closes_once_emits_once (p q : QPoint) (ms : List QPoint) :
    ((Overlay.shown.run (MouseEvent.press MouseButton.left p ::
        (ms.map MouseEvent.move ++
          [MouseEvent.release MouseButton.left q]))).1.closeCount = 1) ∧
    ((Overlay.shown.run (MouseEvent.press MouseButton.left p ::
        (ms.map MouseEvent.move ++
          [MouseEvent.release MouseButton.left q]))).2.length = 1) := by
  have hsp : (Overlay.shown.onPress MouseButton.left p).start_point = some p := by
    simp [Overlay.onPress]
  have hcc : (Overlay.shown.onPress MouseButton.left p).closeCount = 0 := by
    simp [Overlay.onPress, Overlay.shown, Overlay.init]
  obtain ⟨h1, h2⟩ :=
    Overlay.run_moves_release p q ms (Overlay.shown.onPress MouseButton.left p) hsp
  constructor
  · simp only [Overlay.run, Overlay.step]
    rw [hcc] at h1
    exact h1
  · simp only [Overlay.run, Overlay.step, List.nil_append]
    exact h2

/-! ### Claim C8 -/

/-- The try block of handle_selection writes no MainApp attribute. -/
theorem handle_selection_try_app (env : PipeEnv) (rect : QRect)
    (st : SysState) : (handle_selection_try env rect st).1.app = st.app := by
  cases hg : env.grabWindow with
  | error e => simp [handle_selection_try, hg]
  | ok pm =>
    cases hpil : env.toPilImage (pm.copy rect) with
    | error e => simp [handle_selection_try, hg, hpil]
    | ok img =>
      cases hocr : env.imageToString img with
      | error e => simp [handle_selection_try, hg, hpil, hocr]
      | ok text =>
        cases hcl : env.pyperclipCopy (pyStrip text) with
        | some e => simp [handle_selection_try, hg, hpil, hocr, hcl]
        | none => simp [handle_selection_try, hg, hpil, hocr, hcl]

/-- handle_selection writes no MainApp attribute. -/
theorem handle_selection_app (env : PipeEnv) (rect : QRect) (st : SysState) :
    (handle_selection env rect st).1.app = st.app := by
  have h := handle_selection_try_app env rect st
  unfold handle_selection
  rcases heq : handle_selection_try env rect st with ⟨st', r⟩
  rw [heq] at h
  cases r with
  | none => simpa using h
  | some e => cases e <;> simpa [PyError.isException] using h

/-- Folding handle_selection over a list of emitted rectangles leaves the
MainApp unchanged. -/
theorem foldl_handle_selection_app (env : PipeEnv) (conn : Bool) :
    ∀ (rects : List QRect) (s : SysState),
      (rects.foldl (fun s rect =>
          if conn then (handle_selection env rect s).1 else s) s).app = s.app := by
  intro rects
  induction rects with
  | nil => intro s; rfl
  | cons r rs ih =>
    intro s
    simp only [List.foldl_cons]
    rw [ih]
    by_cases hc : conn = true
    · simp only [hc, if_true]
      exact handle_selection_app env r s
    · simp [hc]

/-- Claim C8: no data entity persists across invocations of the capture
flow: handle_selection changes no field of MainApp (the selection
rectangle, captured image and extracted text live only in locals of the
embedding, never in the state), and a whole event step changes no MainApp
field other than the overlay bookkeeping: the stored argv is untouched. -/
theorem C8_no_state_retained (env : PipeEnv) (rect : QRect) (st : SysState)
    (ev : SysEvent) :
    (handle_selection env rect st).1.app = st.app ∧
    (sysStep env st ev).app.args = st.app.args := by
  refine ⟨handle_selection_app env rect st, ?_⟩
  cases ev with
  | hotkey =>
    show st.app.start_overlay.args = st.app.args
    unfold MainApp.start_overlay
    cases h : st.app.overlay with
    | none => rfl
    | some o =>
      by_cases hv : o.visible
      · simp [hv]
      · simp [hv]
  | mouse me =>
    unfold sysStep
    cases h : st.app.overlay with
    | none => rfl
    | some o =>
      simp only []
      by_cases hv : o.visible
      · simp only [hv, if_true]
        rw [foldl_handle_selection_app]
      · simp [hv]

/-! ### Claim C9 -/

/-- The invariant behind at-most-one-visible-overlay: every overlay the app
created and no longer references is invisible. -/
def GhostsHidden (st : SysState) : Prop :=
  ∀ g ∈ st.app.ghosts, g.visible = false

/-- Every event step preserves the invariant: start_overlay only discards
an overlay that is already invisible, and mouse handling never touches the
discarded ones. -/
theorem sysStep_ghostsHidden (env : PipeEnv) (st : SysState) (ev : SysEvent)
    (h : GhostsHidden st) : GhostsHidden (sysStep env st ev) := by
  cases ev with
  | hotkey =>
    show GhostsHidden { st with app := st.app.start_overlay }
    unfold MainApp.start_overlay
    cases ho : st.app.overlay with
    | none => exact h
    | some o =>
      by_cases hv : o.visible
      · simp only [hv, if_true]
        exact h
      · simp only [hv, if_false]
        intro g hg
        have hg' : g = o ∨ g ∈ st.app.ghosts := by simpa using hg
        cases hg' with
        | inl h1 => subst h1; simpa using hv
        | inr h2 => exact h g h2
  | mouse me =>
    unfold sysStep
    cases ho : st.app.overlay with
    | none => exact h
    | some o =>
      simp only []
      by_cases hv : o.visible
      · simp only [hv, if_true]
        intro g hg
        rw [foldl_handle_selection_app] at hg
        exact h g hg
      · simp only [hv, if_false]
        exact h

/-- A state satisfying the invariant has at most one visible overlay. -/
theorem visibleCount_le_one (st : SysState) (h : GhostsHidden st) :
    st.visibleCount ≤ 1 := by
  unfold SysState.visibleCount
  have hfilter : st.app.ghosts.filter (fun o => o.visible) = [] := by
    rw [List.filter_eq_nil_iff]
    intro g hg
    simp [h g hg]
  rw [hfilter]
  cases st.app.overlay with
  | none => simp
  | some o => by_cases hv : o.visible <;> simp [hv]

/-- Claim C9: start_overlay is idempotent while a selection is in progress:
with a visible overlay present, calling it again changes nothing (no new
overlay, no new connection, the application state is unchanged); and along
every event trace from startup at most one overlay is visible at any
time. -/
theorem C9_start_overlay_idempotent (app : MainApp) (o : Overlay)
    (ho : app.overlay = some o) (hv : o.visible = true) :
    app.start_overlay = app ∧
    ∀ (env : PipeEnv) (argv : List String) (clip : String)
      (evs : List SysEvent),
      (sysRun env (initSys argv clip) evs).visibleCount ≤ 1 := by
  constructor
  · unfold MainApp.start_overlay
    rw [ho]
    simp [hv]
  · intro env argv clip evs
    have hinv : ∀ (s : SysState), GhostsHidden s →
        GhostsHidden (sysRun env s evs) := by
      induction evs with
      | nil => intro s hs; exact hs
      | cons e es ih =>
        intro s hs
        exact ih (sysStep env s e) (sysStep_ghostsHidden env s e hs)
    refine visibleCount_le_one _ (hinv (initSys argv clip) ?_)
    intro g hg
    simp [initSys, create_app, MainApp.init] at hg
  -- hg : g ∈ [] is absurd

/-- Witness for C9: an app holding a visible overlay is unchanged by a
second start_overlay call, and one hotkey event from startup leaves at most
one visible overlay. -/
theorem C9_start_overlay_idempotent_witness :
    (MainApp.mk [] (some Overlay.shown) []).start_overlay =
        MainApp.mk [] (some Overlay.shown) [] ∧
      ∀ (env : PipeEnv) (argv : List String) (clip : String)
        (evs : List SysEvent),
        (sysRun env (initSys argv clip) evs).visibleCount ≤ 1 :=
  C9_start_overlay_idempotent (MainApp.mk [] (some Overlay.shown) [])
    Overlay.shown rfl rfl

/-! ### Claim C7 -/

/-- Two system states that agree on everything except the stored argv. -/
def EqUpToArgs (s t : SysState) : Prop :=
  s.app.overlay = t.app.overlay ∧ s.app.ghosts = t.app.ghosts ∧
    s.world = t.world

/-- start_overlay reads and writes only the overlay and ghost fields. -/
theorem start_overlay_components (app1 app2 : MainApp)
    (hov : app1.overlay = app2.overlay) (hgh : app1.ghosts = app2.ghosts) :
    app1.start_overlay.overlay = app2.start_overlay.overlay ∧
      app1.start_overlay.ghosts = app2.start_overlay.ghosts := by
  unfold MainApp.start_overlay
  rw [hov]
  cases ho : app2.overlay with
  | none => exact ⟨rfl, hgh⟩
  | some o =>
    dsimp only
    by_cases hv : o.visible <;> simp [hv, hov, hgh]

/-- The world part of handle_selection's result depends only on the world
part of its input. -/
theorem handle_selection_world_eq (env : PipeEnv) (rect : QRect)
    (s t : SysState) (hw : s.world = t.world) :
    (handle_selection env rect s).1.world =
      (handle_selection env rect t).1.world := by
  have htry : (handle_selection_try env rect s).1.world =
      (handle_selection_try env rect t).1.world ∧
      (handle_selection_try env rect s).2 =
        (handle_selection_try env rect t).2 := by
    cases hg : env.grabWindow with
    | error e => constructor <;> simp [handle_selection_try, hg, hw]
    | ok pm =>
      cases hpil : env.toPilImage (pm.copy rect) with
      | error e => constructor <;> simp [handle_selection_try, hg, hpil, hw]
      | ok img =>
        cases hocr : env.imageToString img with
        | error e =>
          constructor <;> simp [handle_selection_try, hg, hpil, hocr, hw]
        | ok text =>
          cases hcl : env.pyperclipCopy (pyStrip text) with
          | some e =>
            constructor <;>
              simp [handle_selection_try, hg, hpil, hocr, hcl, hw]
          | none =>
            constructor <;>
              simp [handle_selection_try, hg, hpil, hocr, hcl, hw]
  unfold handle_selection
  rcases heqs : handle_selection_try env rect s with ⟨s', rs⟩
  rcases heqt : handle_selection_try env rect t with ⟨t', rt⟩
  rw [heqs, heqt] at htry
  obtain ⟨hw', hr⟩ := htry
  dsimp only at hw' hr
  subst hr
  cases rs with
  | none => exact hw'
  | some e => cases e <;> simp [PyError.isException, hw']

/-- Folding handle_selection over emitted rectangles gives worlds that
agree whenever the starting worlds agree. -/
theorem foldl_handle_selection_world (env : PipeEnv) (conn : Bool) :
    ∀ (rects : List QRect) (s t : SysState), s.world = t.world →
      (rects.foldl (fun s rect =>
          if conn then (handle_selection env rect s).1 else s) s).world =
        (rects.foldl (fun s rect =>
          if conn then (handle_selection env rect s).1 else s) t).world := by
  intro rects
  induction rects with
  | nil => intro s t hw; exact hw
  | cons r rs ih =>
    intro s t hw
    simp only [List.foldl_cons]
    cases conn with
    | true => exact ih _ _ (handle_selection_world_eq env r s t hw)
    | false => exact ih _ _ hw

/-- One event step preserves agreement up to the stored argv. -/
theorem sysStep_eqUpToArgs (env : PipeEnv) (ev : SysEvent) (s t : SysState)
    (h : EqUpToArgs s t) : EqUpToArgs (sysStep env s ev) (sysStep env t ev) := by
  obtain ⟨hov, hgh, hw⟩ := h
  cases ev with
  | hotkey =>
    exact ⟨(start_overlay_components s.app t.app hov hgh).1,
      (start_overlay_components s.app t.app hov hgh).2, hw⟩
  | mouse me =>
    unfold sysStep
    rw [hov]
    cases ho : t.app.overlay with
    | none => exact ⟨hov, hgh, hw⟩
    | some o =>
      dsimp only
      by_cases hv : o.visible
      · simp only [hv, if_true]
        refine ⟨?_, ?_, ?_⟩
        · rw [foldl_handle_selection_app, foldl_handle_selection_app]
        · rw [foldl_handle_selection_app, foldl_handle_selection_app]
          exact hgh
        · exact foldl_handle_selection_world env o.connected
            (o.step me).emitted _ _ hw
      · simp only [hv, if_false]
        exact ⟨hov, hgh, hw⟩

/-- Claim C7: the program parses no command-line arguments: runs from any
two argument vectors, under the same environment and event trace, have
identical observable behaviour (overlay state, clipboard, stdout, pipeline
calls). -/
theorem C7_argv_irrelevant (env : PipeEnv) (a1 a2 : List String)
    (clip : String) (evs : List SysEvent) :
    (sysRun env (initSys a1 clip) evs).observables =
      (sysRun env (initSys a2 clip) evs).observables := by
  have hrun : ∀ (es : List SysEvent) (s t : SysState), EqUpToArgs s t →
      EqUpToArgs (sysRun env s es) (sysRun env t es) := by
    intro es
    induction es with
    | nil => intro s t h; exact h
    | cons e es ih =>
      intro s t h
      exact ih _ _ (sysStep_eqUpToArgs env e s t h)
  obtain ⟨h1, h2, h3⟩ :=
    hrun evs (initSys a1 clip) (initSys a2 clip) ⟨rfl, rfl, rfl⟩
  unfold SysState.observables
  rw [h1, h2, h3]

end Heimdall
